import Mathlib

/-!
# Blinc render-bridge core: verification development

The repository ships its cross-language render-bridge contract as two C
bridging headers (`Blinc-Bridging-Header.h` in `extensions/blinc_platform_ios`
and in `mobile/example/platforms/ios/BlincApp`).  The Rust implementation
behind those declarations is not part of the source snapshot, so every
component below is modelled from the specification (`spec.md` sections 3 and 4)
together with the header documentation comments, and the claims are settled
against that model.

Conventions of the embedding:
* pixel counts (`uint32_t`) are `Nat`, with explicit `< 2 ^ 32` bounds where a
  claim needs them;
* the scale factor and touch coordinates (`double` / `float` in the headers)
  are `ℚ`; the spec constrains them only by exact arithmetic (logical size is
  physical size divided by scale), so rationals are a faithful carrier;
* opaque function pointers (UI builder, native dispatch) are identified by a
  `Nat` tag so that "which handler was invoked" is observable in the model;
* wall-clock time for animation ticking is an explicit `Nat` parameter.
-/

namespace Blinc

/-- Modelled from the spec: the implicit reasons a `DirtyTracker` can be set
(state mutation, animation activity, explicit external wake); the Rust
implementation is not in the source snapshot. -/
inductive DirtyReason where
  | stateMutation
  | animationActivity
  | externalWake
  deriving DecidableEq

/-- Modelled from the spec: `DirtyTracker` is a single boolean plus implicit
reason; `reason = none` means clean, `reason = some r` means dirty for
reason `r`. -/
structure DirtyTracker where
  reason : Option DirtyReason
  deriving DecidableEq

/-- The boolean view of the tracker: dirty iff some reason is recorded. -/
def DirtyTracker.isDirty (d : DirtyTracker) : Bool :=
  d.reason.isSome

/-- Setting the tracker records the (latest) reason. -/
def DirtyTracker.set (_ : DirtyTracker) (r : DirtyReason) : DirtyTracker :=
  { reason := some r }

/-- Clearing the tracker erases the reason; per the spec this happens only by
explicit host acknowledgement or a successful frame build, never by a read. -/
def DirtyTracker.clear (_ : DirtyTracker) : DirtyTracker :=
  { reason := none }

/-- Modelled from the spec: one active animation handle with its target
end-time (times are `Nat` ticks of the internal wall clock). -/
structure Animation where
  handle : Nat
  endTime : Nat
  deriving DecidableEq

/-- Modelled from the spec: `AnimationClock` is the set of active animation
handles with target end-times plus the timestamp of the last tick. -/
structure AnimationClock where
  animations : List Animation
  lastTick : Nat
  deriving DecidableEq

/-- Whether any animation is still active. -/
def AnimationClock.hasActive (clk : AnimationClock) : Bool :=
  !clk.animations.isEmpty

/-- Modelled from the spec: advancing the clock to `now` removes expired
entries (end-time reached).  Returns the advanced clock, whether any animation
remains active, and whether any animation completed on this tick. -/
def AnimationClock.tick (clk : AnimationClock) (now : Nat) :
    AnimationClock × Bool × Bool :=
  let remaining := clk.animations.filter (fun a => decide (now < a.endTime))
  let completed := clk.animations.any (fun a => decide (a.endTime ≤ now))
  (⟨remaining, now⟩, !remaining.isEmpty, completed)

/-- Touch phases, per the header encoding 0=Began, 1=Moved, 2=Ended,
3=Cancelled. -/
inductive TouchPhase where
  | Began
  | Moved
  | Ended
  | Cancelled
  deriving DecidableEq

/-- Decode the C `int32_t` phase value; any value outside 0..3 is invalid and
the event must be treated as a no-op. -/
def decodePhase (p : Int) : Option TouchPhase :=
  if p = 0 then some TouchPhase.Began
  else if p = 1 then some TouchPhase.Moved
  else if p = 2 then some TouchPhase.Ended
  else if p = 3 then some TouchPhase.Cancelled
  else none

/-- Modelled from the spec: the per-identifier touch record (current position
and phase). -/
structure TouchState where
  x : ℚ
  y : ℚ
  phase : TouchPhase
  deriving DecidableEq

/-- Look up the entry for a touch identifier in an association list. -/
def findTouch : List (Nat × TouchState) → Nat → Option TouchState
  | [], _ => none
  | (k, t) :: rest, i => if k = i then some t else findTouch rest i

/-- Remove every entry for a touch identifier. -/
def removeTouch : List (Nat × TouchState) → Nat → List (Nat × TouchState)
  | [], _ => []
  | (k, t) :: rest, i =>
      if k = i then removeTouch rest i else (k, t) :: removeTouch rest i

/-- Insert (or overwrite) the entry for a touch identifier. -/
def insertTouch (l : List (Nat × TouchState)) (i : Nat) (t : TouchState) :
    List (Nat × TouchState) :=
  (i, t) :: removeTouch l i

/-- Modelled from the spec: `TouchRouter` maps host-assigned 64-bit touch
identifiers to current position and phase; entries are created on Began,
updated on Moved, removed on Ended/Cancelled. -/
structure TouchRouter where
  entries : List (Nat × TouchState)
  deriving DecidableEq

/-- Whether the router currently holds a live entry for this identifier. -/
def TouchRouter.isLive (r : TouchRouter) (i : Nat) : Bool :=
  (findTouch r.entries i).isSome

/-- Modelled from the spec: route one decoded touch event.  Began with an
already-live id overwrites prior state; Moved/Ended/Cancelled with no live
entry is a defensive no-op.  The boolean reports whether the event was
accepted (an accepted event marks the context dirty). -/
def TouchRouter.route (r : TouchRouter) (i : Nat) (x y : ℚ) :
    TouchPhase → TouchRouter × Bool
  | TouchPhase.Began =>
      (⟨insertTouch r.entries i ⟨x, y, TouchPhase.Began⟩⟩, true)
  | TouchPhase.Moved =>
      if r.isLive i then
        (⟨insertTouch r.entries i ⟨x, y, TouchPhase.Moved⟩⟩, true)
      else (r, false)
  | TouchPhase.Ended =>
      if r.isLive i then (⟨removeTouch r.entries i⟩, true) else (r, false)
  | TouchPhase.Cancelled =>
      if r.isLive i then (⟨removeTouch r.entries i⟩, true) else (r, false)

/-- Modelled from the spec: `RenderContext` owns the physical size, scale
factor, DirtyTracker, AnimationClock, TouchRouter and focus flag; the logical
size is always derived from physical size and scale, never stored. -/
structure RenderContext where
  physicalWidth : Nat
  physicalHeight : Nat
  scaleFactor : ℚ
  dirty : DirtyTracker
  clock : AnimationClock
  touches : TouchRouter
  focused : Bool
  deriving DecidableEq

/-- Logical width, derived as physical width divided by the scale factor. -/
def RenderContext.logicalWidth (c : RenderContext) : ℚ :=
  (c.physicalWidth : ℚ) / c.scaleFactor

/-- Logical height, derived as physical height divided by the scale factor. -/
def RenderContext.logicalHeight (c : RenderContext) : ℚ :=
  (c.physicalHeight : ℚ) / c.scaleFactor

/-- Modelled from the spec: `blinc_create_context` fails (returns null) on
invalid scale (≤ 0); on success the DirtyTracker starts dirty (the first
frame is always needed), no animations are active, no touches are live.
Allocation failure is not modelled. -/
def blinc_create_context (w h : Nat) (s : ℚ) : Option RenderContext :=
  if 0 < s then
    some
      { physicalWidth := w
        physicalHeight := h
        scaleFactor := s
        dirty := { reason := some DirtyReason.stateMutation }
        clock := { animations := [], lastTick := 0 }
        touches := { entries := [] }
        focused := false }
  else none

/-- `blinc_needs_render`: true iff the DirtyTracker is set or the
AnimationClock has active entries.  Pure query, no mutation. -/
def blinc_needs_render (c : RenderContext) : Bool :=
  c.dirty.isDirty || c.clock.hasActive

/-- Modelled from the spec: `blinc_tick_animations` advances the clock to
`now`, removes expired animations, sets the DirtyTracker if any animation
completed this tick, and returns whether any animation remains active. -/
def blinc_tick_animations (c : RenderContext) (now : Nat) :
    RenderContext × Bool :=
  let r := c.clock.tick now
  let d := if r.2.2 then c.dirty.set DirtyReason.animationActivity else c.dirty
  ({ c with clock := r.1, dirty := d }, r.2.1)

/-- `blinc_mark_dirty`: explicit external wake request. -/
def blinc_mark_dirty (c : RenderContext) : RenderContext :=
  { c with dirty := c.dirty.set DirtyReason.externalWake }

/-- `blinc_clear_dirty`: explicit host acknowledgement. -/
def blinc_clear_dirty (c : RenderContext) : RenderContext :=
  { c with dirty := c.dirty.clear }

/-- Modelled from the spec: `blinc_build_frame` with a registered builder
ticks animations, invokes the builder, then clears the DirtyTracker; with no
registered builder it is a no-op with no observable effect.  The second
component records which builder (by tag) was invoked, `none` on the no-op
path. -/
def blinc_build_frame (reg : Option Nat) (c : RenderContext) (now : Nat) :
    RenderContext × Option Nat :=
  match reg with
  | none => (c, none)
  | some b =>
      let r := blinc_tick_animations c now
      ({ r.1 with dirty := r.1.dirty.clear }, some b)

/-- Modelled from the spec: `blinc_update_size` stores the new physical size
and scale (logical size is derived); per the spec's adopted default, a size
change marks the context dirty. -/
def blinc_update_size (c : RenderContext) (w h : Nat) (s : ℚ) :
    RenderContext :=
  let d :=
    if w ≠ c.physicalWidth ∨ h ≠ c.physicalHeight ∨ s ≠ c.scaleFactor then
      c.dirty.set DirtyReason.stateMutation
    else c.dirty
  { c with physicalWidth := w, physicalHeight := h, scaleFactor := s,
           dirty := d }

/-- Modelled from the spec: `blinc_handle_touch` decodes the phase (unknown
values are a no-op), routes the event to the TouchRouter, and marks dirty iff
the event was accepted. -/
def blinc_handle_touch (c : RenderContext) (i : Nat) (x y : ℚ)
    (phase : Int) : RenderContext :=
  match decodePhase phase with
  | none => c
  | some ph =>
      let r := c.touches.route i x y ph
      let d := if r.2 then c.dirty.set DirtyReason.stateMutation else c.dirty
      { c with touches := r.1, dirty := d }

/-- Modelled from the spec: `blinc_set_focused` toggles the focus flag;
transitioning to unfocused cancels all live touches (treated as Cancelled,
hence accepted events that mark dirty when any touch was live). -/
def blinc_set_focused (c : RenderContext) (f : Bool) : RenderContext :=
  if c.focused && !f then
    { c with focused := false
             touches := { entries := [] }
             dirty :=
               if c.touches.entries.isEmpty then c.dirty
               else c.dirty.set DirtyReason.stateMutation }
  else { c with focused := f }

/-- `blinc_get_width`: logical width query. -/
def blinc_get_width (c : RenderContext) : ℚ :=
  c.logicalWidth

/-- `blinc_get_height`: logical height query. -/
def blinc_get_height (c : RenderContext) : ℚ :=
  c.logicalHeight

/-- `blinc_get_physical_width`: physical width query. -/
def blinc_get_physical_width (c : RenderContext) : Nat :=
  c.physicalWidth

/-- `blinc_get_physical_height`: physical height query. -/
def blinc_get_physical_height (c : RenderContext) : Nat :=
  c.physicalHeight

/-- `blinc_get_scale_factor`: scale factor query. -/
def blinc_get_scale_factor (c : RenderContext) : ℚ :=
  c.scaleFactor

/-- Bridge error taxonomy, per the spec. -/
inductive BridgeError where
  | BridgeNotReady
  | BridgeCallFailed
  | BridgeDecodeError
  deriving DecidableEq

/-- Modelled from the spec: a host-side dispatch function.  The `tag`
identifies the function pointer so that the model can observe *which* handler
a call invoked; `fn` maps (namespace, name, JSON args) to the serialized
result, `none` standing for the host's failure indicator. -/
structure NativeHandler where
  tag : Nat
  fn : String → String → String → Option String

/-- Modelled from the spec: `NativeBridge` holds at most one registered
dispatch function (last registration wins) and no per-call state. -/
structure NativeBridge where
  dispatch : Option NativeHandler

/-- The bridge state before any registration. -/
def initialBridge : NativeBridge :=
  { dispatch := none }

/-- `blinc_set_native_call_fn` / `register`: stores the dispatch function,
overwriting any prior registration. -/
def NativeBridge.register (_ : NativeBridge) (h : NativeHandler) :
    NativeBridge :=
  { dispatch := some h }

/-- `blinc_native_bridge_is_ready`: true iff a dispatch function is
registered. -/
def NativeBridge.isReady (b : NativeBridge) : Bool :=
  b.dispatch.isSome

/-- Outcome of handing a request to one concrete handler: `BridgeCallFailed`
when the host signals failure, otherwise the serialized result. -/
def applyHandler (h : NativeHandler) (ns name args : String) :
    Except BridgeError String :=
  match h.fn ns name args with
  | none => Except.error BridgeError.BridgeCallFailed
  | some r => Except.ok r

/-- Modelled from the spec: `call` fails with `BridgeNotReady` when no
dispatch function is registered, otherwise synchronously invokes the
registered handler.  The second component records the tag of the handler that
was invoked (`none` when no handler ran at all). -/
def NativeBridge.call (b : NativeBridge) (ns name args : String) :
    Except BridgeError String × Option Nat :=
  match b.dispatch with
  | none => (Except.error BridgeError.BridgeNotReady, none)
  | some h => (applyHandler h ns name args, some h.tag)

/-- Modelled from the spec: the GPU renderer bound to a platform surface
handle.  `resources` stands for the persistent GPU resource handles (textures,
caches) that a resize must never destroy; `fonts` is the count of loaded font
faces. -/
structure IOSGpuRenderer where
  surfaceHandle : Nat
  width : Nat
  height : Nat
  resources : Nat
  fonts : Nat
  deriving DecidableEq

/-- Modelled from the spec: `blinc_gpu_resize` reconfigures the drawable for
the new dimensions, preserving persistent GPU resources; with unchanged
dimensions it leaves the surface exactly as it was. -/
def blinc_gpu_resize (g : IOSGpuRenderer) (w h : Nat) : IOSGpuRenderer :=
  if w = g.width ∧ h = g.height then g
  else { g with width := w, height := h }

/-- Modelled from the spec: the tag under which `ios_app_init` registers the
process-wide Rust UI builder. -/
def rustUiBuilder : Nat :=
  0

/-- Events of the iOS application shell that touch the UI-builder registry or
the render context, modelling the C entry points of the BlincApp bridging
header. -/
inductive AppEvent where
  | iosAppInit
  | setUiBuilder (b : Nat)
  | createContext (w h : Nat) (s : ℚ)
  | destroyContext
  | buildFrame (now : Nat)
  | tickAnims (now : Nat)
  | markDirty
  | clearDirty
  | updateSize (w h : Nat) (s : ℚ)
  | handleTouch (i : Nat) (x y : ℚ) (phase : Int)
  | setFocused (f : Bool)

/-- Modelled from the spec: the process-wide state of the application shell —
the UIBuilderRegistry (a single registered builder tag), the current render
context if one is live, and, for observation, which builder the most recent
`buildFrame` invoked (`some none` records a no-builder no-op build). -/
structure AppState where
  registry : Option Nat
  ctx : Option RenderContext
  lastBuildInvoked : Option (Option Nat)

/-- Process start: nothing registered, no context. -/
def initialAppState : AppState :=
  { registry := none, ctx := none, lastBuildInvoked := none }

/-- Modelled from the spec: one step of the application shell.
`ios_app_init` registers the Rust UI builder in the process-wide registry;
context-directed events are no-ops while no context is live. -/
def stepApp (s : AppState) : AppEvent → AppState
  | AppEvent.iosAppInit => { s with registry := some rustUiBuilder }
  | AppEvent.setUiBuilder b => { s with registry := some b }
  | AppEvent.createContext w h sc => { s with ctx := blinc_create_context w h sc }
  | AppEvent.destroyContext => { s with ctx := none }
  | AppEvent.buildFrame now =>
      match s.ctx with
      | none => s
      | some c =>
          let r := blinc_build_frame s.registry c now
          { s with ctx := some r.1, lastBuildInvoked := some r.2 }
  | AppEvent.tickAnims now =>
      { s with ctx := s.ctx.map (fun c => (blinc_tick_animations c now).1) }
  | AppEvent.markDirty => { s with ctx := s.ctx.map blinc_mark_dirty }
  | AppEvent.clearDirty => { s with ctx := s.ctx.map blinc_clear_dirty }
  | AppEvent.updateSize w h sc =>
      { s with ctx := s.ctx.map (fun c => blinc_update_size c w h sc) }
  | AppEvent.handleTouch i x y ph =>
      { s with ctx := s.ctx.map (fun c => blinc_handle_touch c i x y ph) }
  | AppEvent.setFocused f =>
      { s with ctx := s.ctx.map (fun c => blinc_set_focused c f) }

/-- Run the application shell over a sequence of events from process start. -/
def runApp (events : List AppEvent) : AppState :=
  events.foldl stepApp initialAppState

/-- A sample render context: exactly the context `blinc_create_context
1170 2532 3` produces.  Used to instantiate several witnesses. -/
def sampleCtx : RenderContext :=
  { physicalWidth := 1170
    physicalHeight := 2532
    scaleFactor := 3
    dirty := { reason := some DirtyReason.stateMutation }
    clock := { animations := [], lastTick := 0 }
    touches := { entries := [] }
    focused := false }

/-- Removing an identifier from the touch table leaves no entry for it. -/
theorem findTouch_removeTouch (l : List (Nat × TouchState)) (i : Nat) :
    findTouch (removeTouch l i) i = none := by
  induction l with
  | nil => rfl
  | cons e rest ih =>
      obtain ⟨k, t⟩ := e
      by_cases hk : k = i
      · simp [removeTouch, hk, ih]
      · simp [removeTouch, findTouch, hk, ih]

/-- One shell step never unregisters the UI builder: the registry stays
populated. -/
theorem stepApp_registry_isSome (s : AppState) (e : AppEvent)
    (h : s.registry.isSome = true) :
    (stepApp s e).registry.isSome = true := by
  cases e with
  | buildFrame now =>
      cases hc : s.ctx with
      | none => simpa [stepApp, hc] using h
      | some c => simpa [stepApp, hc] using h
  | iosAppInit => simp [stepApp]
  | setUiBuilder b => simp [stepApp]
  | createContext w hh sc => simpa [stepApp] using h
  | destroyContext => simpa [stepApp] using h
  | tickAnims now => simpa [stepApp] using h
  | markDirty => simpa [stepApp] using h
  | clearDirty => simpa [stepApp] using h
  | updateSize w hh sc => simpa [stepApp] using h
  | handleTouch i x y ph => simpa [stepApp] using h
  | setFocused f => simpa [stepApp] using h

/-- Running any further events keeps the UI builder registered. -/
theorem foldl_stepApp_registry_isSome (events : List AppEvent) (s : AppState)
    (h : s.registry.isSome = true) :
    (events.foldl stepApp s).registry.isSome = true := by
  induction events generalizing s with
  | nil => simpa using h
  | cons e rest ih => exact ih _ (stepApp_registry_isSome s e h)

/-- C1: for every live render context with a registered UI builder,
`build_frame` clears the DirtyTracker regardless of which reason set it, and
immediately after `build_frame` returns, `needs_render` is true if and only
if the AnimationClock still has active animations. -/
theorem c1_build_frame_clears_dirty (b : Nat) (c : RenderContext)
    (now : Nat) :
    (blinc_build_frame (some b) c now).1.dirty.isDirty = false ∧
    blinc_needs_render (blinc_build_frame (some b) c now).1 =
      (blinc_build_frame (some b) c now).1.clock.hasActive := by
  simp [blinc_build_frame, blinc_needs_render, DirtyTracker.clear,
    DirtyTracker.isDirty]

/-- C2: the invariant "logical size equals physical size divided by scale
factor" holds after `create` and after every `update_size`; `update_size`
with changed dimensions makes `needs_render` true; concretely
`create(1170, 2532, 3)` yields logical size `(390, 844)` and a subsequent
`update_size(2340, 5064, 3)` yields logical size `(780, 1688)` with
`needs_render` true. -/
theorem c2_logical_size_invariant :
    (∀ (w h : Nat) (s : ℚ) (c : RenderContext),
        blinc_create_context w h s = some c →
        c.logicalWidth = (w : ℚ) / s ∧ c.logicalHeight = (h : ℚ) / s) ∧
    (∀ (c : RenderContext) (w h : Nat) (s : ℚ),
        (blinc_update_size c w h s).logicalWidth = (w : ℚ) / s ∧
        (blinc_update_size c w h s).logicalHeight = (h : ℚ) / s) ∧
    (∀ (c : RenderContext) (w h : Nat) (s : ℚ),
        w ≠ c.physicalWidth ∨ h ≠ c.physicalHeight →
        blinc_needs_render (blinc_update_size c w h s) = true) ∧
    (∀ c : RenderContext, blinc_create_context 1170 2532 3 = some c →
        c.logicalWidth = 390 ∧ c.logicalHeight = 844 ∧
        (blinc_update_size c 2340 5064 3).logicalWidth = 780 ∧
        (blinc_update_size c 2340 5064 3).logicalHeight = 1688 ∧
        blinc_needs_render (blinc_update_size c 2340 5064 3) = true) := by
  refine ⟨?_, ?_, ?_, ?_⟩
  · intro w h s c hc
    by_cases hs : 0 < s
    · simp [blinc_create_context, hs] at hc
      subst hc
      exact ⟨rfl, rfl⟩
    · simp [blinc_create_context, hs] at hc
  · intro c w h s
    exact ⟨rfl, rfl⟩
  · intro c w h s hchanged
    have hcond : w ≠ c.physicalWidth ∨ h ≠ c.physicalHeight ∨
        s ≠ c.scaleFactor := by
      rcases hchanged with h1 | h2
      · exact Or.inl h1
      · exact Or.inr (Or.inl h2)
    simp [blinc_update_size, hcond, blinc_needs_render, DirtyTracker.set,
      DirtyTracker.isDirty]
  · intro c hc
    have h3 : (0 : ℚ) < 3 := by norm_num
    simp [blinc_create_context, h3] at hc
    subst hc
    refine ⟨by norm_num [RenderContext.logicalWidth],
      by norm_num [RenderContext.logicalHeight], ?_, ?_, ?_⟩
    · norm_num [blinc_update_size, RenderContext.logicalWidth]
    · norm_num [blinc_update_size, RenderContext.logicalHeight]
    · decide

/-- Witness for C2 at the concrete scenario of the spec. -/
theorem c2_witness :
    blinc_create_context 1170 2532 3 = some sampleCtx ∧
    (sampleCtx.logicalWidth = 390 ∧ sampleCtx.logicalHeight = 844 ∧
      (blinc_update_size sampleCtx 2340 5064 3).logicalWidth = 780 ∧
      (blinc_update_size sampleCtx 2340 5064 3).logicalHeight = 1688 ∧
      blinc_needs_render (blinc_update_size sampleCtx 2340 5064 3) = true) :=
  ⟨by decide, c2_logical_size_invariant.2.2.2 sampleCtx (by decide)⟩

/-- C3: for all width and height representable as unsigned 32-bit pixel
counts and every scale greater than zero, `create` succeeds and
`needs_render` queried immediately on the new context returns true (the
DirtyTracker starts dirty). -/
theorem c3_create_starts_dirty (w h : Nat) (s : ℚ)
    (hw : w < 2 ^ 32) (hh : h < 2 ^ 32) (hs : 0 < s) :
    ∃ c, blinc_create_context w h s = some c ∧
      blinc_needs_render c = true := by
  rw [blinc_create_context, if_pos hs]
  exact ⟨_, rfl, rfl⟩

/-- Witness for C3 at a concrete iPhone-sized input. -/
theorem c3_witness :
    (1170 < 2 ^ 32 ∧ 2532 < 2 ^ 32 ∧ (0 : ℚ) < 3) ∧
    ∃ c, blinc_create_context 1170 2532 3 = some c ∧
      blinc_needs_render c = true :=
  ⟨by decide,
   c3_create_starts_dirty 1170 2532 3 (by decide) (by decide) (by decide)⟩

/-- C4: every NativeBridge call made before any dispatch function has been
registered returns `BridgeNotReady` and never invokes any host handler (the
invocation record is `none`). -/
theorem c4_call_before_register (ns name args : String) :
    NativeBridge.call initialBridge ns name args =
      (Except.error BridgeError.BridgeNotReady, none) :=
  rfl

/-- C5: for every live render context and touch identifier, the sequence
Began, Moved, Ended leaves the TouchRouter with no entry for that
identifier, and any Moved/Ended/Cancelled event with no live entry for the
identifier is a no-op that does not change the context at all. -/
theorem c5_touch_lifecycle (c : RenderContext) (i : Nat)
    (x1 y1 x2 y2 : ℚ) :
    ((blinc_handle_touch (blinc_handle_touch
        (blinc_handle_touch c i x1 y1 0) i x2 y2 1) i x2 y2 2).touches.isLive
      i = false) ∧
    (∀ c' : RenderContext, c'.touches.isLive i = false →
      ∀ (x y : ℚ) (ph : Int), ph = 1 ∨ ph = 2 ∨ ph = 3 →
        blinc_handle_touch c' i x y ph = c') := by
  constructor
  · simp [blinc_handle_touch, decodePhase, TouchRouter.route,
      TouchRouter.isLive, insertTouch, findTouch, removeTouch,
      findTouch_removeTouch]
  · intro c' hlive x y ph hph
    rcases hph with rfl | rfl | rfl
    · simp [blinc_handle_touch, decodePhase, TouchRouter.route, hlive]
    · simp [blinc_handle_touch, decodePhase, TouchRouter.route, hlive]
    · simp [blinc_handle_touch, decodePhase, TouchRouter.route, hlive]

/-- Witness for C5: the lifecycle on a fresh context with id 7, and an orphan
Moved on the fresh context being a no-op. -/
theorem c5_witness :
    ((blinc_handle_touch (blinc_handle_touch
        (blinc_handle_touch sampleCtx 7 10 20 0) 7 11 21 1) 7 11 21
        2).touches.isLive 7 = false) ∧
    blinc_handle_touch sampleCtx 7 5 5 1 = sampleCtx :=
  ⟨(c5_touch_lifecycle sampleCtx 7 10 20 11 21).1,
   (c5_touch_lifecycle sampleCtx 7 10 20 11 21).2 sampleCtx (by decide)
     5 5 1 (Or.inl rfl)⟩

/-- C6: calling `set_focused(false)` while the context is focused cancels
every live touch, so that afterwards the TouchRouter has no live entries. -/
theorem c6_unfocus_cancels_touches (c : RenderContext)
    (h : c.focused = true) :
    (blinc_set_focused c false).touches.entries = [] := by
  simp [blinc_set_focused, h]

/-- A focused context with two live touches, for the C6 witness. -/
def twoTouchCtx : RenderContext :=
  { sampleCtx with
    focused := true
    touches :=
      { entries := [(7, ⟨1, 2, TouchPhase.Began⟩),
                    (9, ⟨3, 4, TouchPhase.Moved⟩)] } }

/-- Witness for C6: a focused context with two live touches loses both on
`set_focused(false)`. -/
theorem c6_witness :
    (twoTouchCtx.touches.isLive 7 = true ∧
     twoTouchCtx.touches.isLive 9 = true ∧
     twoTouchCtx.focused = true) ∧
    (blinc_set_focused twoTouchCtx false).touches.entries = [] :=
  ⟨by decide, c6_unfocus_cancels_touches twoTouchCtx (by decide)⟩

/-- C7: with zero active animations, `tick_animations` returns false and
leaves the DirtyTracker unchanged; the whole context is unchanged apart from
the internal tick timestamp. -/
theorem c7_tick_no_animations (c : RenderContext) (now : Nat)
    (h : c.clock.animations = []) :
    (blinc_tick_animations c now).2 = false ∧
    (blinc_tick_animations c now).1.dirty = c.dirty ∧
    (blinc_tick_animations c now).1 =
      { c with clock := { c.clock with lastTick := now } } := by
  simp [blinc_tick_animations, AnimationClock.tick, h]

/-- Witness for C7 on the freshly created context (no animations). -/
theorem c7_witness :
    sampleCtx.clock.animations = [] ∧
    (blinc_tick_animations sampleCtx 16).2 = false ∧
    (blinc_tick_animations sampleCtx 16).1.dirty = sampleCtx.dirty :=
  ⟨rfl, (c7_tick_no_animations sampleCtx 16 rfl).1,
   (c7_tick_no_animations sampleCtx 16 rfl).2.1⟩

/-- C8: NativeBridge registration is last-writer-wins: after registering
handlers A then B, the bridge is ready, every call invokes only B (never A),
and the result is B's response. -/
theorem c8_register_last_writer_wins (b0 : NativeBridge)
    (A B : NativeHandler) (hAB : A.tag ≠ B.tag) (ns name args : String) :
    ((b0.register A).register B).isReady = true ∧
    (((b0.register A).register B).call ns name args).2 = some B.tag ∧
    (((b0.register A).register B).call ns name args).2 ≠ some A.tag ∧
    (((b0.register A).register B).call ns name args).1 =
      applyHandler B ns name args := by
  refine ⟨rfl, rfl, ?_, rfl⟩
  exact fun hcontra => hAB (Option.some.inj hcontra).symm

/-- First concrete handler for the C8 witness. -/
def handlerA : NativeHandler :=
  { tag := 0, fn := fun _ _ _ => some "80" }

/-- Second concrete handler for the C8 witness. -/
def handlerB : NativeHandler :=
  { tag := 1, fn := fun _ _ _ => some "55" }

/-- Witness for C8 with two concrete handlers and a concrete call. -/
theorem c8_witness :
    handlerA.tag ≠ handlerB.tag ∧
    ((initialBridge.register handlerA).register handlerB).isReady = true ∧
    (((initialBridge.register handlerA).register handlerB).call "device"
        "get_battery_level" "[]").2 = some handlerB.tag ∧
    (((initialBridge.register handlerA).register handlerB).call "device"
        "get_battery_level" "[]").2 ≠ some handlerA.tag ∧
    (((initialBridge.register handlerA).register handlerB).call "device"
        "get_battery_level" "[]").1 =
      applyHandler handlerB "device" "get_battery_level" "[]" :=
  ⟨by decide,
   c8_register_last_writer_wins initialBridge handlerA handlerB (by decide)
     "device" "get_battery_level" "[]"⟩

/-- C9: `resize` with the surface's current dimensions is idempotent: the
surface state (including persistent GPU resource handles) is unchanged, and a
second identical resize observes the same state as one. -/
theorem c9_resize_unchanged_idempotent (g : IOSGpuRenderer) :
    blinc_gpu_resize g g.width g.height = g ∧
    blinc_gpu_resize (blinc_gpu_resize g g.width g.height) g.width
      g.height = blinc_gpu_resize g g.width g.height := by
  have h1 : blinc_gpu_resize g g.width g.height = g := by
    simp [blinc_gpu_resize]
  exact ⟨h1, by rw [h1]; exact h1⟩

/-- C10: in the application shell, once `ios_app_init` has completed, the UI
builder registry is populated, and any `build_frame` on a live context
invokes exactly the registered builder — never the no-builder no-op path. -/
theorem c10_init_then_build_invokes_builder (pre post : List AppEvent)
    (now : Nat) (c : RenderContext)
    (h : (runApp (pre ++ AppEvent.iosAppInit :: post)).ctx = some c) :
    (runApp (pre ++ AppEvent.iosAppInit :: post)).registry.isSome = true ∧
    (stepApp (runApp (pre ++ AppEvent.iosAppInit :: post))
        (AppEvent.buildFrame now)).lastBuildInvoked =
      some (runApp (pre ++ AppEvent.iosAppInit :: post)).registry ∧
    (stepApp (runApp (pre ++ AppEvent.iosAppInit :: post))
        (AppEvent.buildFrame now)).lastBuildInvoked ≠ some none := by
  have hreg :
      (runApp (pre ++ AppEvent.iosAppInit :: post)).registry.isSome = true := by
    rw [runApp, List.foldl_append, List.foldl_cons]
    exact foldl_stepApp_registry_isSome post _ (by simp [stepApp])
  obtain ⟨b, hb⟩ := Option.isSome_iff_exists.mp hreg
  refine ⟨hreg, ?_, ?_⟩
  · simp [stepApp, h, hb, blinc_build_frame]
  · simp [stepApp, h, hb, blinc_build_frame]

/-- Witness for C10: init, create, then build on the created context. -/
theorem c10_witness :
    (runApp ([] ++ AppEvent.iosAppInit ::
        [AppEvent.createContext 1170 2532 3])).registry.isSome = true ∧
    (stepApp (runApp ([] ++ AppEvent.iosAppInit ::
          [AppEvent.createContext 1170 2532 3]))
        (AppEvent.buildFrame 16)).lastBuildInvoked =
      some (runApp ([] ++ AppEvent.iosAppInit ::
          [AppEvent.createContext 1170 2532 3])).registry ∧
    (stepApp (runApp ([] ++ AppEvent.iosAppInit ::
          [AppEvent.createContext 1170 2532 3]))
        (AppEvent.buildFrame 16)).lastBuildInvoked ≠ some none :=
  c10_init_then_build_invokes_builder [] [AppEvent.createContext 1170 2532 3]
    16 sampleCtx (by decide)

end Blinc
